import Mathlib

/-!
A shallow embedding of libvirt's identity module (src/util/viridentity.c)
and of the LXC domain job admission controller declared in
src/lxc/lxc_domain.h, together with proofs of the specified properties.

An identity holds a list of typed parameters (virTypedParameter).  The
typed-parameter helpers (virTypedParamsGet / GetString / GetULLong /
GetLLong / Add* / Copy) live outside the provided sources; they are
embedded here with their standard libvirt semantics: a parameter list is
scanned front to back, the first entry whose field name matches is
returned, getters report 0 when missing, 1 when found with the right
type and -1 on a type mismatch, and the Add helpers append one entry.
-/

set_option autoImplicit false

/-- The value of a virTypedParameter; the identity module only uses the
STRING, ULLONG and LLONG variants.  Unsigned long long values are
natural numbers below 2^64; long long values are integers. -/
inductive TypedValue where
  | vstring (s : String)
  | vullong (v : Nat)
  | vllong (v : Int)
  deriving DecidableEq, Repr

/-- The type tag of a virTypedParameter value. -/
inductive ParamType where
  | pstring
  | pullong
  | pllong
  deriving DecidableEq, Repr

/-- The type tag carried by a typed value. -/
def TypedValue.ptype : TypedValue → ParamType
  | .vstring _ => ParamType.pstring
  | .vullong _ => ParamType.pullong
  | .vllong _ => ParamType.pllong

/-- One virTypedParameter: a field name and a typed value. -/
structure VirTypedParam where
  field : String
  value : TypedValue
  deriving DecidableEq, Repr

/-- virIdentity: the params array together with nparams (the length of
the embedded list); maxparams is an allocation detail with no
observable behaviour. -/
structure VirIdentity where
  params : List VirTypedParam
  deriving DecidableEq, Repr

/-- VIR_CONNECT_IDENTITY_USER_NAME -/
def VIR_CONNECT_IDENTITY_USER_NAME : String := "user-name"

/-- VIR_CONNECT_IDENTITY_UNIX_USER_ID -/
def VIR_CONNECT_IDENTITY_UNIX_USER_ID : String := "unix-user-id"

/-- VIR_CONNECT_IDENTITY_GROUP_NAME -/
def VIR_CONNECT_IDENTITY_GROUP_NAME : String := "group-name"

/-- VIR_CONNECT_IDENTITY_UNIX_GROUP_ID -/
def VIR_CONNECT_IDENTITY_UNIX_GROUP_ID : String := "unix-group-id"

/-- VIR_CONNECT_IDENTITY_PROCESS_ID -/
def VIR_CONNECT_IDENTITY_PROCESS_ID : String := "process-id"

/-- VIR_CONNECT_IDENTITY_PROCESS_TIME -/
def VIR_CONNECT_IDENTITY_PROCESS_TIME : String := "process-time"

/-- VIR_CONNECT_IDENTITY_SASL_USER_NAME -/
def VIR_CONNECT_IDENTITY_SASL_USER_NAME : String := "sasl-user-name"

/-- VIR_CONNECT_IDENTITY_X509_DISTINGUISHED_NAME -/
def VIR_CONNECT_IDENTITY_X509_DISTINGUISHED_NAME : String := "x509-distinguished-name"

/-- VIR_CONNECT_IDENTITY_SELINUX_CONTEXT -/
def VIR_CONNECT_IDENTITY_SELINUX_CONTEXT : String := "selinux-context"

/-- virTypedParamsGet: return the first parameter whose field name
matches, or none. -/
def virTypedParamsGet (params : List VirTypedParam) (name : String) :
    Option VirTypedParam :=
  params.find? (fun p => p.field == name)

/-- virTypedParamsGetString: rc 0 when the parameter is missing, 1 when
present with STRING type (the out pointer receives the value), -1 when
present with another type.  The out pointer (second component) is left
at its incoming value except on success. -/
def virTypedParamsGetString (params : List VirTypedParam) (name : String)
    (value : Option String) : Int × Option String :=
  match virTypedParamsGet params name with
  | Option.none => (0, value)
  | some p =>
      match p.value with
      | TypedValue.vstring s => (1, some s)
      | _ => (-1, value)

/-- virTypedParamsGetULLong, with the same rc convention; the out
pointer is written only on success. -/
def virTypedParamsGetULLong (params : List VirTypedParam) (name : String)
    (value : Nat) : Int × Nat :=
  match virTypedParamsGet params name with
  | Option.none => (0, value)
  | some p =>
      match p.value with
      | TypedValue.vullong v => (1, v)
      | _ => (-1, value)

/-- virTypedParamsGetLLong, with the same rc convention; the out
pointer is written only on success. -/
def virTypedParamsGetLLong (params : List VirTypedParam) (name : String)
    (value : Int) : Int × Int :=
  match virTypedParamsGet params name with
  | Option.none => (0, value)
  | some p =>
      match p.value with
      | TypedValue.vllong v => (1, v)
      | _ => (-1, value)

/-- virTypedParamsAddString: append one STRING parameter. -/
def virTypedParamsAddString (params : List VirTypedParam) (name : String)
    (value : String) : Int × List VirTypedParam :=
  (0, params ++ [⟨name, TypedValue.vstring value⟩])

/-- virTypedParamsAddULLong: append one ULLONG parameter. -/
def virTypedParamsAddULLong (params : List VirTypedParam) (name : String)
    (value : Nat) : Int × List VirTypedParam :=
  (0, params ++ [⟨name, TypedValue.vullong value⟩])

/-- virTypedParamsAddLLong: append one LLONG parameter. -/
def virTypedParamsAddLLong (params : List VirTypedParam) (name : String)
    (value : Int) : Int × List VirTypedParam :=
  (0, params ++ [⟨name, TypedValue.vllong value⟩])

/-- virIdentityNew: a new identity has zero attributes. -/
def virIdentityNew : VirIdentity := ⟨[]⟩

/-- (uid_t)-1, the sentinel written by virIdentityGetUNIXUserID. -/
def UID_SENTINEL : Nat := 2 ^ 32 - 1

/-- (gid_t)-1, the sentinel written by virIdentityGetUNIXGroupID. -/
def GID_SENTINEL : Nat := 2 ^ 32 - 1

/-- The (uid_t)val / (gid_t)val narrowing cast from unsigned long long
to the 32-bit unsigned id type. -/
def castUid (v : Nat) : Nat := v % 2 ^ 32

/-- The (pid_t)val narrowing cast from long long to the 32-bit signed
pid type (two's complement wraparound). -/
def castPid (v : Int) : Int := (v + 2 ^ 31) % 2 ^ 32 - 2 ^ 31

/-- virIdentityGetUserName: the out pointer is first set to NULL, so a
call that reports absent (0) or error (-1) leaves NULL there. -/
def virIdentityGetUserName (ident : VirIdentity) : Int × Option String :=
  virTypedParamsGetString ident.params VIR_CONNECT_IDENTITY_USER_NAME
    Option.none

/-- virIdentityGetUNIXUserID: the out pointer is first set to (uid_t)-1;
on rc <= 0 the helper has not written val and the function returns
early, so the sentinel survives; on success the ULLONG value is
narrowed to uid_t. -/
def virIdentityGetUNIXUserID (ident : VirIdentity) : Int × Nat :=
  let uid : Nat := UID_SENTINEL
  match virTypedParamsGetULLong ident.params VIR_CONNECT_IDENTITY_UNIX_USER_ID 0 with
  | (rc, val) => if rc ≤ 0 then (rc, uid) else (1, castUid val)

/-- virIdentityGetGroupName, same shape as virIdentityGetUserName. -/
def virIdentityGetGroupName (ident : VirIdentity) : Int × Option String :=
  virTypedParamsGetString ident.params VIR_CONNECT_IDENTITY_GROUP_NAME
    Option.none

/-- virIdentityGetUNIXGroupID, same shape as virIdentityGetUNIXUserID. -/
def virIdentityGetUNIXGroupID (ident : VirIdentity) : Int × Nat :=
  let gid : Nat := GID_SENTINEL
  match virTypedParamsGetULLong ident.params VIR_CONNECT_IDENTITY_UNIX_GROUP_ID 0 with
  | (rc, val) => if rc ≤ 0 then (rc, gid) else (1, castUid val)

/-- virIdentityGetProcessID: the out pointer is first set to 0; on
rc <= 0 the function returns early, so 0 survives; on success the
LLONG value is narrowed to pid_t. -/
def virIdentityGetProcessID (ident : VirIdentity) : Int × Int :=
  let pid : Int := 0
  match virTypedParamsGetLLong ident.params VIR_CONNECT_IDENTITY_PROCESS_ID 0 with
  | (rc, val) => if rc ≤ 0 then (rc, pid) else (1, castPid val)

/-- virIdentityGetProcessTime: the out pointer is first set to 0 and is
the helper's own out pointer, so it keeps 0 on absent or error. -/
def virIdentityGetProcessTime (ident : VirIdentity) : Int × Nat :=
  virTypedParamsGetULLong ident.params VIR_CONNECT_IDENTITY_PROCESS_TIME 0

/-- virIdentityGetSASLUserName, same shape as virIdentityGetUserName. -/
def virIdentityGetSASLUserName (ident : VirIdentity) : Int × Option String :=
  virTypedParamsGetString ident.params VIR_CONNECT_IDENTITY_SASL_USER_NAME
    Option.none

/-- virIdentityGetX509DName, same shape as virIdentityGetUserName. -/
def virIdentityGetX509DName (ident : VirIdentity) : Int × Option String :=
  virTypedParamsGetString ident.params
    VIR_CONNECT_IDENTITY_X509_DISTINGUISHED_NAME Option.none

/-- virIdentityGetSELinuxContext, same shape as virIdentityGetUserName. -/
def virIdentityGetSELinuxContext (ident : VirIdentity) : Int × Option String :=
  virTypedParamsGetString ident.params VIR_CONNECT_IDENTITY_SELINUX_CONTEXT
    Option.none

/-- virIdentitySetUserName: fails with rc -1 (VIR_ERR_OPERATION_DENIED,
"Identity attribute is already set") when the attribute is present,
otherwise appends it. -/
def virIdentitySetUserName (ident : VirIdentity) (username : String) :
    Int × VirIdentity :=
  match virTypedParamsGet ident.params VIR_CONNECT_IDENTITY_USER_NAME with
  | some _ => (-1, ident)
  | Option.none =>
      match virTypedParamsAddString ident.params VIR_CONNECT_IDENTITY_USER_NAME
          username with
      | (rc, ps) => (rc, ⟨ps⟩)

/-- virIdentitySetUNIXUserID: write-once, then appends the uid as an
ULLONG parameter (uid_t widens losslessly). -/
def virIdentitySetUNIXUserID (ident : VirIdentity) (uid : Nat) :
    Int × VirIdentity :=
  match virTypedParamsGet ident.params VIR_CONNECT_IDENTITY_UNIX_USER_ID with
  | some _ => (-1, ident)
  | Option.none =>
      match virTypedParamsAddULLong ident.params
          VIR_CONNECT_IDENTITY_UNIX_USER_ID uid with
      | (rc, ps) => (rc, ⟨ps⟩)

/-- virIdentitySetGroupName: write-once, then appends a STRING. -/
def virIdentitySetGroupName (ident : VirIdentity) (groupname : String) :
    Int × VirIdentity :=
  match virTypedParamsGet ident.params VIR_CONNECT_IDENTITY_GROUP_NAME with
  | some _ => (-1, ident)
  | Option.none =>
      match virTypedParamsAddString ident.params VIR_CONNECT_IDENTITY_GROUP_NAME
          groupname with
      | (rc, ps) => (rc, ⟨ps⟩)

/-- virIdentitySetUNIXGroupID: write-once, then appends an ULLONG. -/
def virIdentitySetUNIXGroupID (ident : VirIdentity) (gid : Nat) :
    Int × VirIdentity :=
  match virTypedParamsGet ident.params VIR_CONNECT_IDENTITY_UNIX_GROUP_ID with
  | some _ => (-1, ident)
  | Option.none =>
      match virTypedParamsAddULLong ident.params
          VIR_CONNECT_IDENTITY_UNIX_GROUP_ID gid with
      | (rc, ps) => (rc, ⟨ps⟩)

/-- virIdentitySetProcessID: write-once, then appends the pid as an
LLONG parameter (pid_t widens losslessly). -/
def virIdentitySetProcessID (ident : VirIdentity) (pid : Int) :
    Int × VirIdentity :=
  match virTypedParamsGet ident.params VIR_CONNECT_IDENTITY_PROCESS_ID with
  | some _ => (-1, ident)
  | Option.none =>
      match virTypedParamsAddLLong ident.params VIR_CONNECT_IDENTITY_PROCESS_ID
          pid with
      | (rc, ps) => (rc, ⟨ps⟩)

/-- virIdentitySetProcessTime: write-once, then appends an ULLONG. -/
def virIdentitySetProcessTime (ident : VirIdentity) (timestamp : Nat) :
    Int × VirIdentity :=
  match virTypedParamsGet ident.params VIR_CONNECT_IDENTITY_PROCESS_TIME with
  | some _ => (-1, ident)
  | Option.none =>
      match virTypedParamsAddULLong ident.params
          VIR_CONNECT_IDENTITY_PROCESS_TIME timestamp with
      | (rc, ps) => (rc, ⟨ps⟩)

/-- virIdentitySetSASLUserName: write-once, then appends a STRING. -/
def virIdentitySetSASLUserName (ident : VirIdentity) (username : String) :
    Int × VirIdentity :=
  match virTypedParamsGet ident.params VIR_CONNECT_IDENTITY_SASL_USER_NAME with
  | some _ => (-1, ident)
  | Option.none =>
      match virTypedParamsAddString ident.params
          VIR_CONNECT_IDENTITY_SASL_USER_NAME username with
      | (rc, ps) => (rc, ⟨ps⟩)

/-- virIdentitySetX509DName: write-once, then appends a STRING. -/
def virIdentitySetX509DName (ident : VirIdentity) (dname : String) :
    Int × VirIdentity :=
  match virTypedParamsGet ident.params
      VIR_CONNECT_IDENTITY_X509_DISTINGUISHED_NAME with
  | some _ => (-1, ident)
  | Option.none =>
      match virTypedParamsAddString ident.params
          VIR_CONNECT_IDENTITY_X509_DISTINGUISHED_NAME dname with
      | (rc, ps) => (rc, ⟨ps⟩)

/-- virIdentitySetSELinuxContext: write-once, then appends a STRING. -/
def virIdentitySetSELinuxContext (ident : VirIdentity) (context : String) :
    Int × VirIdentity :=
  match virTypedParamsGet ident.params VIR_CONNECT_IDENTITY_SELINUX_CONTEXT with
  | some _ => (-1, ident)
  | Option.none =>
      match virTypedParamsAddString ident.params
          VIR_CONNECT_IDENTITY_SELINUX_CONTEXT context with
      | (rc, ps) => (rc, ⟨ps⟩)

/-- The fixed key/type schema accepted by virIdentitySetParameters, as
listed in its virTypedParamsValidate call. -/
def identitySchema : List (String × ParamType) :=
  [(VIR_CONNECT_IDENTITY_USER_NAME, ParamType.pstring),
   (VIR_CONNECT_IDENTITY_UNIX_USER_ID, ParamType.pullong),
   (VIR_CONNECT_IDENTITY_GROUP_NAME, ParamType.pstring),
   (VIR_CONNECT_IDENTITY_UNIX_GROUP_ID, ParamType.pullong),
   (VIR_CONNECT_IDENTITY_PROCESS_ID, ParamType.pllong),
   (VIR_CONNECT_IDENTITY_PROCESS_TIME, ParamType.pullong),
   (VIR_CONNECT_IDENTITY_SASL_USER_NAME, ParamType.pstring),
   (VIR_CONNECT_IDENTITY_X509_DISTINGUISHED_NAME, ParamType.pstring),
   (VIR_CONNECT_IDENTITY_SELINUX_CONTEXT, ParamType.pstring)]

/-- Modelled from the spec: virTypedParamsValidate is not under src/
(only its caller virIdentitySetParameters is).  Per the spec, the bag
is validated against the fixed type schema: a known key with the wrong
type is a TypeMismatch and an unknown key is rejected; otherwise the
bag is accepted. -/
def virTypedParamsValidate (params : List VirTypedParam) : Bool :=
  params.all (fun p =>
    match identitySchema.find? (fun kv => kv.1 == p.field) with
    | some kv => kv.2 == p.value.ptype
    | Option.none => false)

/-- virIdentitySetParameters: validate the bag, and on success drop all
existing attributes and install a copy of the bag; on validation
failure return -1 before anything is freed, leaving the identity
unchanged.  (virTypedParamsCopy, not under src/, is a deep copy and is
the identity map on embedded lists.) -/
def virIdentitySetParameters (ident : VirIdentity)
    (params : List VirTypedParam) : Int × VirIdentity :=
  if virTypedParamsValidate params then (0, ⟨params⟩) else (-1, ident)

/-- virIdentityGetParameters: out pointers are first zeroed, then
receive a copy of the identity's params and their count. -/
def virIdentityGetParameters (ident : VirIdentity) :
    Int × List VirTypedParam :=
  (0, ident.params)

/-- The process environment consulted by virIdentityGetSystem: getpid,
virProcessGetStartTime (none models a failed lookup), the real and
effective ids, virGetUserName(geteuid()) and virGetGroupName(getegid())
(none models an unresolvable name), is_selinux_enabled() > 0, and
getcon (none models a failed lookup). -/
structure SysEnv where
  pid : Int
  startTime : Option Nat
  uid : Nat
  euid : Nat
  gid : Nat
  egid : Nat
  userName : Option String
  groupName : Option String
  selinuxEnabled : Bool
  selinuxCon : Option String
  deriving DecidableEq, Repr

/-- virIdentityGetSystem, with the C control flow: a failed
virProcessGetStartTime goes to the error path (NULL); a start time of
0 merely skips virIdentitySetProcessTime; an unresolvable user or
group name, or a failed getcon, returns the identity built so far; a
failed setter goes to the error path.  The user name is resolved from
geteuid()/getegid() but the numeric ids stored are getuid()/getgid(). -/
def virIdentityGetSystem (env : SysEnv) : Option VirIdentity :=
  match virIdentitySetProcessID virIdentityNew env.pid with
  | (rc1, r1) =>
  if rc1 < 0 then Option.none else
  match env.startTime with
  | Option.none => Option.none
  | some startTime =>
  match (if startTime ≠ 0 then virIdentitySetProcessTime r1 startTime
         else (0, r1)) with
  | (rc2, r2) =>
  if rc2 < 0 then Option.none else
  match env.userName with
  | Option.none => some r2
  | some username =>
  match virIdentitySetUserName r2 username with
  | (rc3, r3) =>
  if rc3 < 0 then Option.none else
  match virIdentitySetUNIXUserID r3 env.uid with
  | (rc4, r4) =>
  if rc4 < 0 then Option.none else
  match env.groupName with
  | Option.none => some r4
  | some groupname =>
  match virIdentitySetGroupName r4 groupname with
  | (rc5, r5) =>
  if rc5 < 0 then Option.none else
  match virIdentitySetUNIXGroupID r5 env.gid with
  | (rc6, r6) =>
  if rc6 < 0 then Option.none else
  if env.selinuxEnabled then
    match env.selinuxCon with
    | Option.none => some r6
    | some con =>
      match virIdentitySetSELinuxContext r6 con with
      | (rc7, r7) => if rc7 < 0 then Option.none else some r7
  else some r6

/-- The state touched by virIdentityGetCurrent / virIdentitySetCurrent:
the calling thread's thread-local slot (virIdentityCurrent), the
reference count of every identity object (indexed by object id), and
the attribute store of every identity object (to express that neither
operation mutates an identity's attributes). -/
structure IdentCtx where
  slot : Option Nat
  refs : Nat → Nat
  store : Nat → VirIdentity

/-- virObjectRef on a non-NULL object: one more reference. -/
def refOne (refs : Nat → Nat) (i : Nat) : Nat → Nat :=
  fun j => if j = i then refs j + 1 else refs j

/-- virObjectUnref: one fewer reference; a no-op on NULL. -/
def unrefOpt (refs : Nat → Nat) (o : Option Nat) : Nat → Nat :=
  match o with
  | Option.none => refs
  | some i => fun j => if j = i then refs j - 1 else refs j

/-- virObjectRef on a possibly NULL object. -/
def refOpt (refs : Nat → Nat) (o : Option Nat) : Nat → Nat :=
  match o with
  | Option.none => refs
  | some i => refOne refs i

/-- virIdentityGetCurrent: read the thread-local slot and take a
reference on the identity found there (virObjectRef(NULL) is NULL). -/
def virIdentityGetCurrent (st : IdentCtx) : IdentCtx × Option Nat :=
  match st.slot with
  | Option.none => (st, Option.none)
  | some i => (⟨st.slot, refOne st.refs i, st.store⟩, some i)

/-- virIdentitySetCurrent: read the old binding, take a reference on
the new identity and store it in the thread-local slot.  setOk models
whether virThreadLocalSet succeeds; on failure the slot is unchanged,
the just-taken reference on the new identity is dropped and -1 is
returned; on success the old binding's reference is dropped. -/
def virIdentitySetCurrent (st : IdentCtx) (ident : Option Nat)
    (setOk : Bool) : Int × IdentCtx :=
  let old := st.slot
  let refs1 := refOpt st.refs ident
  if setOk then
    (0, ⟨ident, unrefOpt refs1 old, st.store⟩)
  else
    (-1, ⟨old, unrefOpt refs1 ident, st.store⟩)

/-- enum virLXCDomainJob (lxc_domain.h). -/
inductive VirLXCDomainJob where
  | LXC_JOB_NONE
  | LXC_JOB_QUERY
  | LXC_JOB_DESTROY
  | LXC_JOB_MODIFY
  deriving DecidableEq, Repr

/-- One queued admission request: the requesting thread and the job
kind it asked for. -/
structure JobRequest where
  thread : Nat
  kind : VirLXCDomainJob
  deriving DecidableEq, Repr

/-- struct virLXCDomainJobObj: the currently running job and the thread
which set it, plus the set of requests blocked on the condition
variable, kept in arrival order. -/
structure VirLXCDomainJobObj where
  active : VirLXCDomainJob
  owner : Nat
  waiting : List JobRequest
  deriving DecidableEq, Repr

/-- Modelled from the spec: the bodies of virLXCDomainObjBeginJob and
virLXCDomainObjEndJob (lxc_domain.c) are not under src/, only their
declarations in lxc_domain.h.  Per spec 4.2, when a job is released
every waiter re-evaluates admission and a pending Destroy request is
admitted ahead of queued Query/Modify requests; among requests of
equal standing the first blocked is admitted first. -/
def nextAdmitted (q : List JobRequest) : Option JobRequest :=
  match q.find? (fun r => r.kind == VirLXCDomainJob.LXC_JOB_DESTROY) with
  | some r => some r
  | Option.none => q.head?

/-- Modelled from the spec: virLXCDomainObjEndJob releases the active
job (active := None, owner := 0), wakes all waiters, and the admission
rules then grant the job slot to nextAdmitted of the wait queue, which
removes itself from the queue and installs its kind and thread. -/
def virLXCDomainObjEndJob (st : VirLXCDomainJobObj) : VirLXCDomainJobObj :=
  match nextAdmitted st.waiting with
  | some r => ⟨r.kind, r.thread, st.waiting.erase r⟩
  | Option.none => ⟨VirLXCDomainJob.LXC_JOB_NONE, 0, st.waiting⟩

/-- The condition under which the spec says a bag is rejected: some
pair has an unknown key, or a known key with the wrong value type. -/
def bagRejected (params : List VirTypedParam) : Prop :=
  ∃ p ∈ params,
    identitySchema.find? (fun kv => kv.1 == p.field) = Option.none ∨
    ∃ kv, identitySchema.find? (fun kv => kv.1 == p.field) = some kv ∧
      kv.2 ≠ p.value.ptype

/-- The shared shape of the nine per-key setters: fail with -1 when the
key is present, otherwise append the new parameter with rc 0. -/
def setIdentityAttrOnce (key : String) (tv : TypedValue)
    (ident : VirIdentity) : Int × VirIdentity :=
  match virTypedParamsGet ident.params key with
  | some _ => (-1, ident)
  | Option.none => (0, ⟨ident.params ++ [⟨key, tv⟩]⟩)

theorem virTypedParamsGet_append_self (ps : List VirTypedParam)
    (name : String) (v : TypedValue)
    (h : virTypedParamsGet ps name = Option.none) :
    virTypedParamsGet (ps ++ [⟨name, v⟩]) name = some ⟨name, v⟩ := by
  unfold virTypedParamsGet at *
  rw [List.find?_append, h]
  simp [List.find?]

theorem virIdentitySetUserName_eq (ident : VirIdentity) (s : String) :
    virIdentitySetUserName ident s
      = setIdentityAttrOnce VIR_CONNECT_IDENTITY_USER_NAME
          (TypedValue.vstring s) ident := by
  unfold virIdentitySetUserName setIdentityAttrOnce virTypedParamsAddString
  cases virTypedParamsGet ident.params VIR_CONNECT_IDENTITY_USER_NAME <;> rfl

theorem virIdentitySetUNIXUserID_eq (ident : VirIdentity) (n : Nat) :
    virIdentitySetUNIXUserID ident n
      = setIdentityAttrOnce VIR_CONNECT_IDENTITY_UNIX_USER_ID
          (TypedValue.vullong n) ident := by
  unfold virIdentitySetUNIXUserID setIdentityAttrOnce virTypedParamsAddULLong
  cases virTypedParamsGet ident.params VIR_CONNECT_IDENTITY_UNIX_USER_ID <;> rfl

theorem virIdentitySetGroupName_eq (ident : VirIdentity) (s : String) :
    virIdentitySetGroupName ident s
      = setIdentityAttrOnce VIR_CONNECT_IDENTITY_GROUP_NAME
          (TypedValue.vstring s) ident := by
  unfold virIdentitySetGroupName setIdentityAttrOnce virTypedParamsAddString
  cases virTypedParamsGet ident.params VIR_CONNECT_IDENTITY_GROUP_NAME <;> rfl

theorem virIdentitySetUNIXGroupID_eq (ident : VirIdentity) (n : Nat) :
    virIdentitySetUNIXGroupID ident n
      = setIdentityAttrOnce VIR_CONNECT_IDENTITY_UNIX_GROUP_ID
          (TypedValue.vullong n) ident := by
  unfold virIdentitySetUNIXGroupID setIdentityAttrOnce virTypedParamsAddULLong
  cases virTypedParamsGet ident.params VIR_CONNECT_IDENTITY_UNIX_GROUP_ID <;> rfl

theorem virIdentitySetProcessID_eq (ident : VirIdentity) (p : Int) :
    virIdentitySetProcessID ident p
      = setIdentityAttrOnce VIR_CONNECT_IDENTITY_PROCESS_ID
          (TypedValue.vllong p) ident := by
  unfold virIdentitySetProcessID setIdentityAttrOnce virTypedParamsAddLLong
  cases virTypedParamsGet ident.params VIR_CONNECT_IDENTITY_PROCESS_ID <;> rfl

theorem virIdentitySetProcessTime_eq (ident : VirIdentity) (n : Nat) :
    virIdentitySetProcessTime ident n
      = setIdentityAttrOnce VIR_CONNECT_IDENTITY_PROCESS_TIME
          (TypedValue.vullong n) ident := by
  unfold virIdentitySetProcessTime setIdentityAttrOnce virTypedParamsAddULLong
  cases virTypedParamsGet ident.params VIR_CONNECT_IDENTITY_PROCESS_TIME <;> rfl

theorem virIdentitySetSASLUserName_eq (ident : VirIdentity) (s : String) :
    virIdentitySetSASLUserName ident s
      = setIdentityAttrOnce VIR_CONNECT_IDENTITY_SASL_USER_NAME
          (TypedValue.vstring s) ident := by
  unfold virIdentitySetSASLUserName setIdentityAttrOnce virTypedParamsAddString
  cases virTypedParamsGet ident.params VIR_CONNECT_IDENTITY_SASL_USER_NAME <;> rfl

theorem virIdentitySetX509DName_eq (ident : VirIdentity) (s : String) :
    virIdentitySetX509DName ident s
      = setIdentityAttrOnce VIR_CONNECT_IDENTITY_X509_DISTINGUISHED_NAME
          (TypedValue.vstring s) ident := by
  unfold virIdentitySetX509DName setIdentityAttrOnce virTypedParamsAddString
  cases virTypedParamsGet ident.params
    VIR_CONNECT_IDENTITY_X509_DISTINGUISHED_NAME <;> rfl

theorem virIdentitySetSELinuxContext_eq (ident : VirIdentity) (s : String) :
    virIdentitySetSELinuxContext ident s
      = setIdentityAttrOnce VIR_CONNECT_IDENTITY_SELINUX_CONTEXT
          (TypedValue.vstring s) ident := by
  unfold virIdentitySetSELinuxContext setIdentityAttrOnce virTypedParamsAddString
  cases virTypedParamsGet ident.params VIR_CONNECT_IDENTITY_SELINUX_CONTEXT <;> rfl

theorem setOnce_write_once (key : String) (tv tv' : TypedValue)
    (ident : VirIdentity) (h : (setIdentityAttrOnce key tv ident).1 = 0) :
    setIdentityAttrOnce key tv' (setIdentityAttrOnce key tv ident).2
      = (-1, (setIdentityAttrOnce key tv ident).2) := by
  cases hg : virTypedParamsGet ident.params key with
  | some p =>
      exfalso
      unfold setIdentityAttrOnce at h
      rw [hg] at h
      simp at h
  | none =>
      unfold setIdentityAttrOnce
      rw [hg]
      simp only
      rw [virTypedParamsGet_append_self ident.params key tv hg]

/-- Claim C1: for every identity and every per-key attribute setter
(user name, unix uid, group name, unix gid, process id, process
start-time, SASL name, X.509 subject, MAC label), once a first call
has written the key (rc 0), a second call on the same key fails with
rc -1 (AlreadySet, VIR_ERR_OPERATION_DENIED) and returns the identity
of the first call unchanged, so the stored value is untouched. -/
theorem virIdentity_set_write_once (ident : VirIdentity) (s1 s2 : String)
    (n1 n2 : Nat) (p1 p2 : Int) :
    ((virIdentitySetUserName ident s1).1 = 0 →
      virIdentitySetUserName (virIdentitySetUserName ident s1).2 s2
        = (-1, (virIdentitySetUserName ident s1).2)) ∧
    ((virIdentitySetUNIXUserID ident n1).1 = 0 →
      virIdentitySetUNIXUserID (virIdentitySetUNIXUserID ident n1).2 n2
        = (-1, (virIdentitySetUNIXUserID ident n1).2)) ∧
    ((virIdentitySetGroupName ident s1).1 = 0 →
      virIdentitySetGroupName (virIdentitySetGroupName ident s1).2 s2
        = (-1, (virIdentitySetGroupName ident s1).2)) ∧
    ((virIdentitySetUNIXGroupID ident n1).1 = 0 →
      virIdentitySetUNIXGroupID (virIdentitySetUNIXGroupID ident n1).2 n2
        = (-1, (virIdentitySetUNIXGroupID ident n1).2)) ∧
    ((virIdentitySetProcessID ident p1).1 = 0 →
      virIdentitySetProcessID (virIdentitySetProcessID ident p1).2 p2
        = (-1, (virIdentitySetProcessID ident p1).2)) ∧
    ((virIdentitySetProcessTime ident n1).1 = 0 →
      virIdentitySetProcessTime (virIdentitySetProcessTime ident n1).2 n2
        = (-1, (virIdentitySetProcessTime ident n1).2)) ∧
    ((virIdentitySetSASLUserName ident s1).1 = 0 →
      virIdentitySetSASLUserName (virIdentitySetSASLUserName ident s1).2 s2
        = (-1, (virIdentitySetSASLUserName ident s1).2)) ∧
    ((virIdentitySetX509DName ident s1).1 = 0 →
      virIdentitySetX509DName (virIdentitySetX509DName ident s1).2 s2
        = (-1, (virIdentitySetX509DName ident s1).2)) ∧
    ((virIdentitySetSELinuxContext ident s1).1 = 0 →
      virIdentitySetSELinuxContext (virIdentitySetSELinuxContext ident s1).2 s2
        = (-1, (virIdentitySetSELinuxContext ident s1).2)) := by
  refine ⟨?_, ?_, ?_, ?_, ?_, ?_, ?_, ?_, ?_⟩ <;> intro h
  · simp only [virIdentitySetUserName_eq] at h ⊢
    exact setOnce_write_once _ _ _ _ h
  · simp only [virIdentitySetUNIXUserID_eq] at h ⊢
    exact setOnce_write_once _ _ _ _ h
  · simp only [virIdentitySetGroupName_eq] at h ⊢
    exact setOnce_write_once _ _ _ _ h
  · simp only [virIdentitySetUNIXGroupID_eq] at h ⊢
    exact setOnce_write_once _ _ _ _ h
  · simp only [virIdentitySetProcessID_eq] at h ⊢
    exact setOnce_write_once _ _ _ _ h
  · simp only [virIdentitySetProcessTime_eq] at h ⊢
    exact setOnce_write_once _ _ _ _ h
  · simp only [virIdentitySetSASLUserName_eq] at h ⊢
    exact setOnce_write_once _ _ _ _ h
  · simp only [virIdentitySetX509DName_eq] at h ⊢
    exact setOnce_write_once _ _ _ _ h
  · simp only [virIdentitySetSELinuxContext_eq] at h ⊢
    exact setOnce_write_once _ _ _ _ h

/-- Witness for claim C1 at the empty identity: every first write of a
key succeeds, and each second write fails with -1 leaving the
identity of the first write in place. -/
theorem virIdentity_set_write_once_witness :
    (virIdentitySetUserName (virIdentitySetUserName ⟨[]⟩ "root").2 "qemu"
        = (-1, (virIdentitySetUserName ⟨[]⟩ "root").2)) ∧
    (virIdentitySetUNIXUserID (virIdentitySetUNIXUserID ⟨[]⟩ 0).2 7
        = (-1, (virIdentitySetUNIXUserID ⟨[]⟩ 0).2)) ∧
    (virIdentitySetGroupName (virIdentitySetGroupName ⟨[]⟩ "root").2 "qemu"
        = (-1, (virIdentitySetGroupName ⟨[]⟩ "root").2)) ∧
    (virIdentitySetUNIXGroupID (virIdentitySetUNIXGroupID ⟨[]⟩ 0).2 7
        = (-1, (virIdentitySetUNIXGroupID ⟨[]⟩ 0).2)) ∧
    (virIdentitySetProcessID (virIdentitySetProcessID ⟨[]⟩ 42).2 43
        = (-1, (virIdentitySetProcessID ⟨[]⟩ 42).2)) ∧
    (virIdentitySetProcessTime (virIdentitySetProcessTime ⟨[]⟩ 0).2 7
        = (-1, (virIdentitySetProcessTime ⟨[]⟩ 0).2)) ∧
    (virIdentitySetSASLUserName (virIdentitySetSASLUserName ⟨[]⟩ "root").2 "qemu"
        = (-1, (virIdentitySetSASLUserName ⟨[]⟩ "root").2)) ∧
    (virIdentitySetX509DName (virIdentitySetX509DName ⟨[]⟩ "root").2 "qemu"
        = (-1, (virIdentitySetX509DName ⟨[]⟩ "root").2)) ∧
    (virIdentitySetSELinuxContext (virIdentitySetSELinuxContext ⟨[]⟩ "root").2 "qemu"
        = (-1, (virIdentitySetSELinuxContext ⟨[]⟩ "root").2)) :=
  ⟨(virIdentity_set_write_once ⟨[]⟩ "root" "qemu" 0 7 42 43).1 (by decide),
   (virIdentity_set_write_once ⟨[]⟩ "root" "qemu" 0 7 42 43).2.1 (by decide),
   (virIdentity_set_write_once ⟨[]⟩ "root" "qemu" 0 7 42 43).2.2.1 (by decide),
   (virIdentity_set_write_once ⟨[]⟩ "root" "qemu" 0 7 42 43).2.2.2.1 (by decide),
   (virIdentity_set_write_once ⟨[]⟩ "root" "qemu" 0 7 42 43).2.2.2.2.1 (by decide),
   (virIdentity_set_write_once ⟨[]⟩ "root" "qemu" 0 7 42 43).2.2.2.2.2.1 (by decide),
   (virIdentity_set_write_once ⟨[]⟩ "root" "qemu" 0 7 42 43).2.2.2.2.2.2.1 (by decide),
   (virIdentity_set_write_once ⟨[]⟩ "root" "qemu" 0 7 42 43).2.2.2.2.2.2.2.1 (by decide),
   (virIdentity_set_write_once ⟨[]⟩ "root" "qemu" 0 7 42 43).2.2.2.2.2.2.2.2 (by decide)⟩

theorem getString_sentinel (ps : List VirTypedParam) (name : String)
    (h : (virTypedParamsGetString ps name Option.none).1 ≤ 0) :
    (virTypedParamsGetString ps name Option.none).2 = Option.none := by
  unfold virTypedParamsGetString at h ⊢
  cases hg : virTypedParamsGet ps name with
  | none => rfl
  | some p =>
      obtain ⟨f, v⟩ := p
      cases v with
      | vstring s => rw [hg] at h; simp at h
      | vullong v => rfl
      | vllong v => rfl

theorem getULLong_sentinel (ps : List VirTypedParam) (name : String)
    (v0 : Nat) (h : (virTypedParamsGetULLong ps name v0).1 ≤ 0) :
    (virTypedParamsGetULLong ps name v0).2 = v0 := by
  unfold virTypedParamsGetULLong at h ⊢
  cases hg : virTypedParamsGet ps name with
  | none => rfl
  | some p =>
      obtain ⟨f, v⟩ := p
      cases v with
      | vstring s => rfl
      | vullong v => rw [hg] at h; simp at h
      | vllong v => rfl

/-- Claim C8: every per-key attribute getter writes its sentinel to the
out parameter before the lookup (NULL for the five string attributes,
(uid_t)-1 and (gid_t)-1 for the unix ids, 0 for process id and process
start-time), so whenever the call reports absent (0) or error (-1) the
caller observes that sentinel. -/
theorem virIdentity_get_sentinels (ident : VirIdentity) :
    ((virIdentityGetUserName ident).1 ≤ 0 →
      (virIdentityGetUserName ident).2 = Option.none) ∧
    ((virIdentityGetUNIXUserID ident).1 ≤ 0 →
      (virIdentityGetUNIXUserID ident).2 = UID_SENTINEL) ∧
    ((virIdentityGetGroupName ident).1 ≤ 0 →
      (virIdentityGetGroupName ident).2 = Option.none) ∧
    ((virIdentityGetUNIXGroupID ident).1 ≤ 0 →
      (virIdentityGetUNIXGroupID ident).2 = GID_SENTINEL) ∧
    ((virIdentityGetProcessID ident).1 ≤ 0 →
      (virIdentityGetProcessID ident).2 = 0) ∧
    ((virIdentityGetProcessTime ident).1 ≤ 0 →
      (virIdentityGetProcessTime ident).2 = 0) ∧
    ((virIdentityGetSASLUserName ident).1 ≤ 0 →
      (virIdentityGetSASLUserName ident).2 = Option.none) ∧
    ((virIdentityGetX509DName ident).1 ≤ 0 →
      (virIdentityGetX509DName ident).2 = Option.none) ∧
    ((virIdentityGetSELinuxContext ident).1 ≤ 0 →
      (virIdentityGetSELinuxContext ident).2 = Option.none) := by
  refine ⟨?_, ?_, ?_, ?_, ?_, ?_, ?_, ?_, ?_⟩ <;> intro h
  · exact getString_sentinel _ _ h
  · unfold virIdentityGetUNIXUserID at h ⊢
    cases hr : virTypedParamsGetULLong ident.params
        VIR_CONNECT_IDENTITY_UNIX_USER_ID 0 with
    | mk rc val =>
        by_cases hrc : rc ≤ 0
        · simp [hrc]
        · rw [hr] at h
          simp [hrc] at h
  · exact getString_sentinel _ _ h
  · unfold virIdentityGetUNIXGroupID at h ⊢
    cases hr : virTypedParamsGetULLong ident.params
        VIR_CONNECT_IDENTITY_UNIX_GROUP_ID 0 with
    | mk rc val =>
        by_cases hrc : rc ≤ 0
        · simp [hrc]
        · rw [hr] at h
          simp [hrc] at h
  · unfold virIdentityGetProcessID at h ⊢
    cases hr : virTypedParamsGetLLong ident.params
        VIR_CONNECT_IDENTITY_PROCESS_ID 0 with
    | mk rc val =>
        by_cases hrc : rc ≤ 0
        · simp [hrc]
        · rw [hr] at h
          simp [hrc] at h
  · exact getULLong_sentinel _ _ _ h
  · exact getString_sentinel _ _ h
  · exact getString_sentinel _ _ h
  · exact getString_sentinel _ _ h

/-- Witness for claim C8 at the empty identity: every getter reports
absent (0) and the out parameter holds the sentinel. -/
theorem virIdentity_get_sentinels_witness :
    (virIdentityGetUserName ⟨[]⟩).2 = Option.none ∧
    (virIdentityGetUNIXUserID ⟨[]⟩).2 = UID_SENTINEL ∧
    (virIdentityGetGroupName ⟨[]⟩).2 = Option.none ∧
    (virIdentityGetUNIXGroupID ⟨[]⟩).2 = GID_SENTINEL ∧
    (virIdentityGetProcessID ⟨[]⟩).2 = 0 ∧
    (virIdentityGetProcessTime ⟨[]⟩).2 = 0 ∧
    (virIdentityGetSASLUserName ⟨[]⟩).2 = Option.none ∧
    (virIdentityGetX509DName ⟨[]⟩).2 = Option.none ∧
    (virIdentityGetSELinuxContext ⟨[]⟩).2 = Option.none :=
  ⟨(virIdentity_get_sentinels ⟨[]⟩).1 (by decide),
   (virIdentity_get_sentinels ⟨[]⟩).2.1 (by decide),
   (virIdentity_get_sentinels ⟨[]⟩).2.2.1 (by decide),
   (virIdentity_get_sentinels ⟨[]⟩).2.2.2.1 (by decide),
   (virIdentity_get_sentinels ⟨[]⟩).2.2.2.2.1 (by decide),
   (virIdentity_get_sentinels ⟨[]⟩).2.2.2.2.2.1 (by decide),
   (virIdentity_get_sentinels ⟨[]⟩).2.2.2.2.2.2.1 (by decide),
   (virIdentity_get_sentinels ⟨[]⟩).2.2.2.2.2.2.2.1 (by decide),
   (virIdentity_get_sentinels ⟨[]⟩).2.2.2.2.2.2.2.2 (by decide)⟩

theorem validate_eq_false_iff (bag : List VirTypedParam) :
    virTypedParamsValidate bag = false ↔ bagRejected bag := by
  unfold virTypedParamsValidate bagRejected
  rw [List.all_eq_false]
  constructor
  · rintro ⟨p, hp, hfp⟩
    refine ⟨p, hp, ?_⟩
    cases hf : identitySchema.find? (fun kv => kv.1 == p.field) with
    | none => exact Or.inl rfl
    | some kv =>
        rw [hf] at hfp
        exact Or.inr ⟨kv, rfl, by simpa using hfp⟩
  · rintro ⟨p, hp, hcase⟩
    refine ⟨p, hp, ?_⟩
    rcases hcase with hnone | ⟨kv, hkv, hne⟩
    · rw [hnone]
      simp
    · rw [hkv]
      simpa using hne

/-- Claim C4: virIdentitySetParameters rejects the bag, returning -1
and leaving the identity's attributes unchanged, exactly when some
pair has an unknown key or a known key with the wrong type; otherwise
it returns 0 and replaces all existing attributes with the bag,
regardless of which keys were already set (the bulk path does not
honor write-once). -/
theorem virIdentitySetParameters_spec (ident : VirIdentity)
    (bag : List VirTypedParam) :
    (bagRejected bag → virIdentitySetParameters ident bag = (-1, ident)) ∧
    (¬bagRejected bag → virIdentitySetParameters ident bag = (0, ⟨bag⟩)) := by
  constructor
  · intro hrej
    unfold virIdentitySetParameters
    rw [(validate_eq_false_iff bag).mpr hrej]
    rfl
  · intro hok
    unfold virIdentitySetParameters
    have hv : virTypedParamsValidate bag = true := by
      cases hv : virTypedParamsValidate bag with
      | false => exact absurd ((validate_eq_false_iff bag).mp hv) hok
      | true => rfl
    rw [hv]
    rfl

/-- Witness for claim C4: an identity holding a user name accepts a
bag that rewrites the already-set user-name key, and rejects a bag
with an unknown key, staying unchanged. -/
theorem virIdentitySetParameters_spec_witness :
    virIdentitySetParameters
        ⟨[⟨VIR_CONNECT_IDENTITY_USER_NAME, TypedValue.vstring "root"⟩]⟩
        [⟨VIR_CONNECT_IDENTITY_USER_NAME, TypedValue.vstring "qemu"⟩]
      = (0, ⟨[⟨VIR_CONNECT_IDENTITY_USER_NAME, TypedValue.vstring "qemu"⟩]⟩) ∧
    virIdentitySetParameters
        ⟨[⟨VIR_CONNECT_IDENTITY_USER_NAME, TypedValue.vstring "root"⟩]⟩
        [⟨"bogus-key", TypedValue.vstring "x"⟩]
      = (-1, ⟨[⟨VIR_CONNECT_IDENTITY_USER_NAME, TypedValue.vstring "root"⟩]⟩) :=
  ⟨(virIdentitySetParameters_spec
      ⟨[⟨VIR_CONNECT_IDENTITY_USER_NAME, TypedValue.vstring "root"⟩]⟩
      [⟨VIR_CONNECT_IDENTITY_USER_NAME, TypedValue.vstring "qemu"⟩]).2
      (by
        intro hrej
        have hv := (validate_eq_false_iff _).mpr hrej
        revert hv
        decide),
   (virIdentitySetParameters_spec
      ⟨[⟨VIR_CONNECT_IDENTITY_USER_NAME, TypedValue.vstring "root"⟩]⟩
      [⟨"bogus-key", TypedValue.vstring "x"⟩]).1
      ((validate_eq_false_iff _).mp (by decide))⟩

/-- Claim C5: for every identity and every bag accepted by
virIdentitySetParameters, a subsequent virIdentityGetParameters on the
same identity returns exactly the bag that was set: the same keys with
the same types and values. -/
theorem virIdentitySetGetParameters_roundtrip (ident : VirIdentity)
    (bag : List VirTypedParam)
    (h : (virIdentitySetParameters ident bag).1 = 0) :
    virIdentityGetParameters (virIdentitySetParameters ident bag).2
      = (0, bag) := by
  unfold virIdentitySetParameters at h ⊢
  cases hv : virTypedParamsValidate bag with
  | false => rw [hv] at h; simp at h
  | true => rfl

/-- Witness for claim C5: setting a two-key bag and reading it back
returns the same bag. -/
theorem virIdentitySetGetParameters_roundtrip_witness :
    virIdentityGetParameters
      (virIdentitySetParameters ⟨[]⟩
        [⟨VIR_CONNECT_IDENTITY_USER_NAME, TypedValue.vstring "root"⟩,
         ⟨VIR_CONNECT_IDENTITY_UNIX_USER_ID, TypedValue.vullong 0⟩]).2
      = (0, [⟨VIR_CONNECT_IDENTITY_USER_NAME, TypedValue.vstring "root"⟩,
             ⟨VIR_CONNECT_IDENTITY_UNIX_USER_ID, TypedValue.vullong 0⟩]) :=
  virIdentitySetGetParameters_roundtrip ⟨[]⟩
    [⟨VIR_CONNECT_IDENTITY_USER_NAME, TypedValue.vstring "root"⟩,
     ⟨VIR_CONNECT_IDENTITY_UNIX_USER_ID, TypedValue.vullong 0⟩]
    (by decide)

/-- Claim C7: after a successful virIdentitySetCurrent(I) the call
returns 0 and binds I; virIdentityGetCurrent then returns I with one
more reference on it; the previously bound identity loses its slot
reference; neither operation touches any identity's attribute store;
and on a thread whose slot was never bound virIdentityGetCurrent
returns none. -/
theorem virIdentitySetGetCurrent_spec (st : IdentCtx) (i : Nat) :
    (virIdentitySetCurrent st (some i) true).1 = 0 ∧
    (virIdentitySetCurrent st (some i) true).2.slot = some i ∧
    (virIdentityGetCurrent (virIdentitySetCurrent st (some i) true).2).2
      = some i ∧
    (virIdentityGetCurrent (virIdentitySetCurrent st (some i) true).2).1.refs i
      = (virIdentitySetCurrent st (some i) true).2.refs i + 1 ∧
    (∀ old, st.slot = some old → old ≠ i →
      (virIdentitySetCurrent st (some i) true).2.refs old
        = st.refs old - 1) ∧
    (virIdentitySetCurrent st (some i) true).2.store = st.store ∧
    (virIdentityGetCurrent (virIdentitySetCurrent st (some i) true).2).1.store
      = st.store ∧
    (st.slot = Option.none → (virIdentityGetCurrent st).2 = Option.none) := by
  refine ⟨rfl, rfl, rfl, ?_, ?_, rfl, rfl, ?_⟩
  · simp [virIdentitySetCurrent, virIdentityGetCurrent, refOne]
  · intro old hold hne
    simp [virIdentitySetCurrent, virIdentityGetCurrent, refOpt, refOne,
      unrefOpt, hold, hne]
  · intro hnone
    simp [virIdentityGetCurrent, hnone]

/-- Witness for claim C7: binding identity 7 over identity 5 (slot
reference count 3) drops 5's count to 2, and a never-bound slot
yields none. -/
theorem virIdentitySetGetCurrent_spec_witness :
    (virIdentitySetCurrent ⟨some 5, fun _ => 3, fun _ => ⟨[]⟩⟩ (some 7)
        true).2.refs 5 = 2 ∧
    (virIdentityGetCurrent ⟨Option.none, fun _ => 3, fun _ => ⟨[]⟩⟩).2
      = Option.none :=
  ⟨(virIdentitySetGetCurrent_spec ⟨some 5, fun _ => 3, fun _ => ⟨[]⟩⟩
      7).2.2.2.2.1 5 rfl (by decide),
   (virIdentitySetGetCurrent_spec ⟨Option.none, fun _ => 3, fun _ => ⟨[]⟩⟩
      7).2.2.2.2.2.2.2 rfl⟩

/-- Claim C9: when virThreadLocalSet fails, virIdentitySetCurrent
returns -1, the slot keeps the previously bound identity, every
reference count is back to its prior value (the reference taken on the
new identity is dropped), and no identity's attributes change. -/
theorem virIdentitySetCurrent_fail_spec (st : IdentCtx) (i : Nat) :
    (virIdentitySetCurrent st (some i) false).1 = -1 ∧
    (virIdentitySetCurrent st (some i) false).2.slot = st.slot ∧
    (∀ j, (virIdentitySetCurrent st (some i) false).2.refs j = st.refs j) ∧
    (virIdentitySetCurrent st (some i) false).2.store = st.store := by
  refine ⟨rfl, rfl, ?_, rfl⟩
  intro j
  by_cases hj : j = i
  · subst hj
    simp [virIdentitySetCurrent, refOpt, refOne, unrefOpt]
  · simp [virIdentitySetCurrent, refOpt, refOne, unrefOpt, hj]

/-- Claim C2: whenever the active job is released while a Destroy
request is queued alongside Query/Modify requests of the same domain,
the request admitted next is a queued Destroy request: the released
job object runs a Destroy, owned by the thread of a waiter that had
requested Destroy, ahead of every queued Query and Modify request. -/
theorem virLXCDomainObjEndJob_destroy_first (st : VirLXCDomainJobObj)
    (h : ∃ r ∈ st.waiting, r.kind = VirLXCDomainJob.LXC_JOB_DESTROY) :
    (virLXCDomainObjEndJob st).active = VirLXCDomainJob.LXC_JOB_DESTROY ∧
    ∃ r ∈ st.waiting, r.kind = VirLXCDomainJob.LXC_JOB_DESTROY ∧
      (virLXCDomainObjEndJob st).owner = r.thread := by
  obtain ⟨r, hr, hk⟩ := h
  have hsome : (st.waiting.find?
      (fun q => q.kind == VirLXCDomainJob.LXC_JOB_DESTROY)).isSome := by
    rw [List.find?_isSome]
    exact ⟨r, hr, by simp [hk]⟩
  obtain ⟨r0, hr0⟩ := Option.isSome_iff_exists.mp hsome
  have hmem : r0 ∈ st.waiting := List.mem_of_find?_eq_some hr0
  have hk0 : r0.kind = VirLXCDomainJob.LXC_JOB_DESTROY := by
    have := List.find?_some hr0
    simpa using this
  have hend : virLXCDomainObjEndJob st
      = ⟨r0.kind, r0.thread, st.waiting.erase r0⟩ := by
    unfold virLXCDomainObjEndJob nextAdmitted
    rw [hr0]
  rw [hend]
  exact ⟨hk0, r0, hmem, hk0, rfl⟩

/-- Witness for claim C2: with a Query from thread 1, a Destroy from
thread 2 and a Modify from thread 3 queued, releasing the active
Modify job admits thread 2's Destroy. -/
theorem virLXCDomainObjEndJob_destroy_first_witness :
    (virLXCDomainObjEndJob
        ⟨VirLXCDomainJob.LXC_JOB_MODIFY, 9,
         [⟨1, VirLXCDomainJob.LXC_JOB_QUERY⟩,
          ⟨2, VirLXCDomainJob.LXC_JOB_DESTROY⟩,
          ⟨3, VirLXCDomainJob.LXC_JOB_MODIFY⟩]⟩).active
      = VirLXCDomainJob.LXC_JOB_DESTROY :=
  (virLXCDomainObjEndJob_destroy_first
    ⟨VirLXCDomainJob.LXC_JOB_MODIFY, 9,
     [⟨1, VirLXCDomainJob.LXC_JOB_QUERY⟩,
      ⟨2, VirLXCDomainJob.LXC_JOB_DESTROY⟩,
      ⟨3, VirLXCDomainJob.LXC_JOB_MODIFY⟩]⟩
    ⟨⟨2, VirLXCDomainJob.LXC_JOB_DESTROY⟩, by decide, rfl⟩).1

/-- Claim C3 (code bug): on a process whose real uid/gid is 1000 but
whose effective uid/gid is 0, with both names resolvable,
virIdentityGetSystem returns an identity on which all four getters
report present (rc 1), but the stored numeric ids are the REAL ids
1000 (getuid()/getgid()), not the effective ids 0 from which the names
were resolved — the code resolves the name via geteuid()/getegid() yet
stores getuid()/getgid(). -/
theorem virIdentityGetSystem_stores_real_ids :
    (virIdentityGetSystem
        ⟨42, some 100, 1000, 0, 1000, 0, some "root", some "root", false,
         Option.none⟩).map
      (fun ident =>
        ((virIdentityGetUserName ident).1, virIdentityGetUNIXUserID ident,
         (virIdentityGetGroupName ident).1, virIdentityGetUNIXGroupID ident))
      = some (1, (1, 1000), 1, (1, 1000)) ∧
    (⟨42, some 100, 1000, 0, 1000, 0, some "root", some "root", false,
      Option.none⟩ : SysEnv).euid = 0 ∧
    (⟨42, some 100, 1000, 0, 1000, 0, some "root", some "root", false,
      Option.none⟩ : SysEnv).egid = 0 := by
  refine ⟨by decide, rfl, rfl⟩

/-- Counterexample to claim C6: with every name resolvable but a
FAILED process start-time lookup, virIdentityGetSystem takes the error
path and returns NULL rather than an identity with fewer attributes —
the start-time lookup failure is fatal. -/
theorem virIdentityGetSystem_startTime_lookup_fatal :
    virIdentityGetSystem
        ⟨42, Option.none, 1000, 0, 1000, 0, some "root", some "root", false,
         Option.none⟩ = Option.none := by decide

/-- Claim C6 as amended: provided the process start-time lookup itself
succeeds, every other attribute lookup failure (unresolvable user
name, unresolvable group name, failed MAC-label lookup) is non-fatal:
a non-null identity is returned, merely carrying fewer attributes.  A
failed start-time lookup, by contrast, is fatal (see the
counterexample). -/
theorem virIdentityGetSystem_nonfatal_lookups (env : SysEnv) (t : Nat)
    (h : env.startTime = some t) :
    (virIdentityGetSystem env).isSome = true := by
  obtain ⟨pid, stime, uid, euid, gid, egid, un, gn, se, sc⟩ := env
  simp only at h
  subst h
  rcases un with _ | u <;> rcases gn with _ | g <;> cases se <;>
    rcases sc with _ | c <;> by_cases ht : t = 0 <;>
      simp [virIdentityGetSystem, virIdentityNew, virIdentitySetProcessID,
        virIdentitySetProcessTime, virIdentitySetUserName,
        virIdentitySetUNIXUserID, virIdentitySetGroupName,
        virIdentitySetUNIXGroupID, virIdentitySetSELinuxContext,
        virTypedParamsGet, virTypedParamsAddString, virTypedParamsAddULLong,
        virTypedParamsAddLLong, VIR_CONNECT_IDENTITY_PROCESS_ID,
        VIR_CONNECT_IDENTITY_PROCESS_TIME, VIR_CONNECT_IDENTITY_USER_NAME,
        VIR_CONNECT_IDENTITY_UNIX_USER_ID, VIR_CONNECT_IDENTITY_GROUP_NAME,
        VIR_CONNECT_IDENTITY_UNIX_GROUP_ID,
        VIR_CONNECT_IDENTITY_SELINUX_CONTEXT, ht]

/-- Witness for the amended claim C6: a process with no resolvable
user name (hence no group or label lookup either) whose start-time
lookup reports 100 still yields an identity. -/
theorem virIdentityGetSystem_nonfatal_lookups_witness :
    (virIdentityGetSystem
        ⟨42, some 100, 1000, 0, 1000, 0, Option.none, Option.none, true,
         Option.none⟩).isSome = true :=
  virIdentityGetSystem_nonfatal_lookups
    ⟨42, some 100, 1000, 0, 1000, 0, Option.none, Option.none, true,
     Option.none⟩ 100 rfl

/-- Claim C10: when the operating system reports a process start time
of 0, virIdentityGetSystem does not fail and does not store 0: the
returned identity has the process id present (rc 1) while
virIdentityGetProcessTime reports absent (rc 0, sentinel 0). -/
theorem virIdentityGetSystem_zero_startTime (env : SysEnv)
    (h : env.startTime = some 0) :
    ((virIdentityGetSystem env).map (fun ident =>
        ((virIdentityGetProcessID ident).1, virIdentityGetProcessTime ident)))
      = some (1, (0, 0)) := by
  obtain ⟨pid, stime, uid, euid, gid, egid, un, gn, se, sc⟩ := env
  simp only at h
  subst h
  rcases un with _ | u <;> rcases gn with _ | g <;> cases se <;>
    rcases sc with _ | c <;>
      simp [virIdentityGetSystem, virIdentityNew, virIdentitySetProcessID,
        virIdentitySetProcessTime, virIdentitySetUserName,
        virIdentitySetUNIXUserID, virIdentitySetGroupName,
        virIdentitySetUNIXGroupID, virIdentitySetSELinuxContext,
        virIdentityGetProcessID, virIdentityGetProcessTime,
        virTypedParamsGetLLong, virTypedParamsGetULLong,
        virTypedParamsGet, virTypedParamsAddString, virTypedParamsAddULLong,
        virTypedParamsAddLLong, VIR_CONNECT_IDENTITY_PROCESS_ID,
        VIR_CONNECT_IDENTITY_PROCESS_TIME, VIR_CONNECT_IDENTITY_USER_NAME,
        VIR_CONNECT_IDENTITY_UNIX_USER_ID, VIR_CONNECT_IDENTITY_GROUP_NAME,
        VIR_CONNECT_IDENTITY_UNIX_GROUP_ID,
        VIR_CONNECT_IDENTITY_SELINUX_CONTEXT]

/-- Witness for claim C10: a process whose start time reads 0 and
whose names resolve still yields an identity with the process id
present and the start-time attribute absent. -/
theorem virIdentityGetSystem_zero_startTime_witness :
    ((virIdentityGetSystem
        ⟨42, some 0, 1000, 0, 1000, 0, some "root", some "root", false,
         Option.none⟩).map (fun ident =>
        ((virIdentityGetProcessID ident).1, virIdentityGetProcessTime ident)))
      = some (1, (0, 0)) :=
  virIdentityGetSystem_zero_startTime
    ⟨42, some 0, 1000, 0, 1000, 0, some "root", some "root", false,
     Option.none⟩ rfl
